import Mathlib

/-!
Shallow embedding of `src/VulkanTesting/main.cpp` (a Vulkan "hello triangle"
bootstrap program) together with theorems about its device-selection,
queue-family discovery, validation-layer checking and teardown logic.

Conventions of the embedding:
* `uint32_t` capability limits become `Nat`; the C++ `double` score is embedded
  as `Int`, which is exact here: every value the score takes is either `-1` or a
  sum of two `uint32_t` values (< 2^33, exactly representable in an IEEE double,
  with exact comparisons).
* Vulkan handles returned by the driver are abstracted: a physical device is
  its queried capability data; `pickPhysicalDevice` returns the index of the
  selected device, with `Option Nat` playing the role of
  `physicalDevice == VK_NULL_HANDLE`.
* C++ exceptions become `Except String`; the string is the `what()` message.
* Driver/loader behaviour that the program only branches on (does a creation
  call return `VK_SUCCESS`, does `vkGetInstanceProcAddr` resolve a name) is an
  explicit boolean field of an environment record.
-/

namespace VK

/-- `VK_QUEUE_GRAPHICS_BIT` (bit 0 of `VkQueueFlags`). -/
def VK_QUEUE_GRAPHICS_BIT : Nat := 1

/-- One element of the array filled by `vkGetPhysicalDeviceQueueFamilyProperties`. -/
structure QueueFamilyProperties where
  queueCount : Nat
  queueFlags : Nat
deriving DecidableEq

/-- The `QueueFamilyIndices` struct of the program (main.cpp:49-52). -/
structure QueueFamilyIndices where
  indexFound : Bool
  graphicsFamily : Nat
deriving DecidableEq

/-- The two limits of `VkPhysicalDeviceLimits` the program reads. -/
structure DeviceLimits where
  maxImageDimension2D : Nat
  maxImageDimension3D : Nat
deriving DecidableEq

/-- A physical device, abstracted to the capability data the program queries. -/
structure PhysicalDevice where
  limits : DeviceLimits
  queueFamilies : List QueueFamilyProperties
deriving DecidableEq

/-- The loop condition at main.cpp:153:
`queueFamily.queueCount > 0 && queueFamily.queueFlags & VK_QUEUE_GRAPHICS_BIT`. -/
def qualifiesGraphics (qf : QueueFamilyProperties) : Bool :=
  decide (0 < qf.queueCount) && decide (qf.queueFlags &&& VK_QUEUE_GRAPHICS_BIT ≠ 0)

/-- The loop of `HelloTriangleApplication::findQueueFamilies` (main.cpp:151-163):
`indices` is the accumulator, `i` the running index. -/
def findQueueFamiliesLoop : List QueueFamilyProperties → Nat → QueueFamilyIndices →
    QueueFamilyIndices
  | [], _, indices => indices
  | qf :: rest, i, indices =>
    let indices1 := if qualifiesGraphics qf then ⟨true, i⟩ else indices
    if indices1.indexFound then indices1 else findQueueFamiliesLoop rest (i + 1) indices1

/-- `HelloTriangleApplication::findQueueFamilies` (main.cpp:145-166); the initial
accumulator is `QueueFamilyIndices indices{false, 0}`. -/
def findQueueFamilies (d : PhysicalDevice) : QueueFamilyIndices :=
  findQueueFamiliesLoop d.queueFamilies 0 ⟨false, 0⟩

/-- `HelloTriangleApplication::deviceScore` (main.cpp:168-192): sum of the two
image-dimension limits, overwritten with the sentinel `-1` when
`findQueueFamilies` found no graphics-capable family. -/
def deviceScore (d : PhysicalDevice) : Int :=
  let score : Int := (d.limits.maxImageDimension2D : Int) + (d.limits.maxImageDimension3D : Int)
  let indices := findQueueFamilies d
  if !indices.indexFound then -1 else score

/-- The selection loop of `pickPhysicalDevice` (main.cpp:127-134): `best` is the
currently selected index (`none` plays `VK_NULL_HANDLE`), `score` the current
best score (initially `0`), `i` the index of the next device. -/
def pickLoop : List PhysicalDevice → Nat → Option Nat → Int → Option Nat × Int
  | [], _, best, score => (best, score)
  | d :: rest, i, best, score =>
    if deviceScore d > score then pickLoop rest (i + 1) (some i) (deviceScore d)
    else pickLoop rest (i + 1) best score

/-- `HelloTriangleApplication::pickPhysicalDevice` (main.cpp:118-143), returning
the index of the selected device or the message of the thrown exception. -/
def pickPhysicalDevice (devices : List PhysicalDevice) : Except String Nat :=
  if devices.isEmpty then
    .error "Failed to find GPUs with Vulkan support! Get a better computer LOSER!!!"
  else
    match (pickLoop devices 0 none 0).1 with
    | none => .error "failed to find a suitable GPU!"
    | some i => .ok i

/-- The compile-time constant `validationLayers` (main.cpp:13-15). -/
def validationLayers : List String := ["VK_LAYER_KHRONOS_validation"]

/-- `std::strcmp(a, b)` used in a boolean context (main.cpp:272): truthy exactly
when the two strings differ. -/
def strcmpNonzero (a b : String) : Bool := decide (a ≠ b)

/-- The inner loop of `checkValidationLayerSupport` (main.cpp:270-276): marks a
requested layer present as soon as `strcmp(availableLayer.layerName,
requestedLayer)` is truthy. -/
def layerIsPresent (availableLayers : List String) (requestedLayer : String) : Bool :=
  availableLayers.any fun availableLayer => strcmpNonzero availableLayer requestedLayer

/-- `HelloTriangleApplication::checkValidationLayerSupport` (main.cpp:260-282):
`allLayersAvailable` starts `true` and is and-ed with `isPresent` for every
requested layer. -/
def checkValidationLayerSupport (requestedLayers availableLayers : List String) : Bool :=
  requestedLayers.all fun requestedLayer => layerIsPresent availableLayers requestedLayer

/-- Acquisition and release steps of the application, used to record traces. -/
inductive Event where
  | glfwInit
  | createWindow
  | createInstance
  | createMessenger
  | createDevice
  | mainLoop
  | destroyDevice
  | destroyMessenger
  | destroyInstance
  | destroyWindow
  | glfwTerminate
deriving DecidableEq

/-- Behaviour of the driver/loader that the program only branches on. -/
structure Env where
  /-- the compile-time `enableValidationLayers` flag (main.cpp:17-21) -/
  enableValidationLayers : Bool
  /-- layer names reported by `vkEnumerateInstanceLayerProperties` -/
  availableLayers : List String
  /-- does `vkCreateInstance` return `VK_SUCCESS` -/
  createInstanceOk : Bool
  /-- does `vkGetInstanceProcAddr` resolve `vkCreateDebugUtilsMessengerEXT` -/
  createMessengerResolvable : Bool
  /-- does `vkCreateDebugUtilsMessengerEXT` return `VK_SUCCESS` -/
  createMessengerOk : Bool
  /-- devices reported by `vkEnumeratePhysicalDevices` -/
  devices : List PhysicalDevice
  /-- does `vkCreateDevice` return `VK_SUCCESS` -/
  createDeviceOk : Bool
  /-- does `vkGetInstanceProcAddr` resolve `vkDestroyDebugUtilsMessengerEXT` -/
  destroyMessengerResolvable : Bool

/-- `callVKfx` (main.cpp:28-37), reduced to its control flow: when
`vkGetInstanceProcAddr` returns a null pointer it throws
`VK_ERROR_EXTENSION_NOT_PRESENT`, otherwise the call goes through. -/
def callVKfxResolves (resolvable : Bool) : Except String Unit :=
  if resolvable then .ok () else .error "VK_ERROR_EXTENSION_NOT_PRESENT"

/-- The error control flow of `createInstance` (main.cpp:194-258): throws when
validation layers are enabled but `checkValidationLayerSupport` fails, then
when `vkCreateInstance` does not return `VK_SUCCESS`. -/
def createInstance (enableValidationLayers : Bool) (availableLayers : List String)
    (createInstanceOk : Bool) : Except String Unit :=
  if enableValidationLayers && !checkValidationLayerSupport validationLayers availableLayers then
    .error "Validation layers requested, but not available!"
  else if !createInstanceOk then .error "Failed to create instance."
  else .ok ()

/-- `setupDebugMessenger` (main.cpp:302-319): returns immediately when
validation layers are off; otherwise `callVKfx` may throw on an unresolvable
entry point, and a non-`VK_SUCCESS` result throws. -/
def setupDebugMessenger (env : Env) : Except String Unit :=
  if !env.enableValidationLayers then .ok ()
  else
    match callVKfxResolves env.createMessengerResolvable with
    | .error e => .error e
    | .ok _ =>
      if !env.createMessengerOk then .error "failed to set up debug messenger!" else .ok ()

/-- `cleanup` (main.cpp:335-342) as a trace: `vkDestroyDevice` always runs, then
the messenger destroy via `callVKfx` (which throws when unresolvable,
abandoning the rest), then instance, window, `glfwTerminate`. The first
component lists the steps executed, the second the escaping exception. -/
def cleanup (destroyMessengerResolvable : Bool) : List Event × Option String :=
  match callVKfxResolves destroyMessengerResolvable with
  | .ok _ =>
    ([.destroyDevice, .destroyMessenger, .destroyInstance, .destroyWindow, .glfwTerminate], none)
  | .error e => ([.destroyDevice], some e)

/-- `HelloTriangleApplication::run` (main.cpp:56-61): `initWindow`, `initVulkan`
(= `createInstance`, `setupDebugMessenger`, `pickPhysicalDevice`,
`createLogicalDevice`), `mainLoop`, `cleanup`, as a trace of events plus the
escaping exception, if any. -/
def runApp (env : Env) : List Event × Option String :=
  let tr0 : List Event := [.glfwInit, .createWindow]
  match createInstance env.enableValidationLayers env.availableLayers env.createInstanceOk with
  | .error e => (tr0, some e)
  | .ok _ =>
    let tr1 := tr0 ++ [Event.createInstance]
    match setupDebugMessenger env with
    | .error e => (tr1, some e)
    | .ok _ =>
      let tr2 := tr1 ++ (if env.enableValidationLayers then [Event.createMessenger] else [])
      match pickPhysicalDevice env.devices with
      | .error e => (tr2, some e)
      | .ok _ =>
        if !env.createDeviceOk then (tr2, some "failed to create logical device!")
        else
          let tr4 := tr2 ++ [Event.createDevice, Event.mainLoop]
          let c := cleanup env.destroyMessengerResolvable
          (tr4 ++ c.1, c.2)

/-- `EXIT_SUCCESS`. -/
def EXIT_SUCCESS : Nat := 0

/-- `EXIT_FAILURE`. -/
def EXIT_FAILURE : Nat := 1

/-- `main` (main.cpp:345-356): the exit code, and the message written to
`std::cerr` by the top-level catch block, if any. -/
def mainResult (env : Env) : Nat × Option String :=
  match (runApp env).2 with
  | some e => (EXIT_FAILURE, some e)
  | none => (EXIT_SUCCESS, none)

/-- Order in which `run` acquires its five resources: GLFW itself and the
window in `initWindow`, then the instance, the debug messenger and the logical
device in `initVulkan`. -/
def acquisitionOrder : List Event :=
  [.glfwInit, .createWindow, .createInstance, .createMessenger, .createDevice]

/-- Pairs each acquisition step with the release step that undoes it. -/
def releaseOf : Event → Event
  | .glfwInit => .glfwTerminate
  | .createWindow => .destroyWindow
  | .createInstance => .destroyInstance
  | .createMessenger => .destroyMessenger
  | .createDevice => .destroyDevice
  | e => e

/-! ### Lemmas about the selection loop -/

lemma pickLoop_no_improvement (l : List PhysicalDevice) :
    ∀ (i : Nat) (b : Option Nat) (s : Int), (∀ d ∈ l, deviceScore d ≤ s) →
      pickLoop l i b s = (b, s) := by
  induction l with
  | nil => intro i b s _; rfl
  | cons d rest ih =>
    intro i b s h
    have hd : ¬ deviceScore d > s := not_lt.mpr (h d (List.mem_cons_self d rest))
    simp only [pickLoop, if_neg hd]
    exact ih (i + 1) b s fun x hx => h x (List.mem_cons_of_mem d hx)

lemma pickLoop_improvement (l : List PhysicalDevice) :
    ∀ (i : Nat) (b : Option Nat) (s : Int), (∃ d ∈ l, s < deviceScore d) →
      ∃ j, ∃ hj : j < l.length,
        pickLoop l i b s = (some (i + j), deviceScore (l.get ⟨j, hj⟩)) ∧
        s < deviceScore (l.get ⟨j, hj⟩) ∧
        (∀ m (hm : m < l.length), deviceScore (l.get ⟨m, hm⟩) ≤ deviceScore (l.get ⟨j, hj⟩)) ∧
        (∀ m (hm : m < l.length), m < j →
          deviceScore (l.get ⟨m, hm⟩) < deviceScore (l.get ⟨j, hj⟩)) := by
  induction l with
  | nil => intro i b s h; simp at h
  | cons d rest ih =>
    intro i b s hex
    by_cases hd : deviceScore d > s
    · by_cases hrest : ∃ x ∈ rest, deviceScore d < deviceScore x
      · obtain ⟨j, hj, heq, hlt, hmax, hstrict⟩ := ih (i + 1) (some i) (deviceScore d) hrest
        refine ⟨j + 1, Nat.succ_lt_succ hj, ?_, ?_, ?_, ?_⟩
        · simp only [pickLoop, if_pos hd]
          rw [heq, show i + 1 + j = i + (j + 1) from by omega]
          rfl
        · exact lt_trans hd hlt
        · intro m hm
          cases m with
          | zero => exact le_of_lt hlt
          | succ m => exact hmax m (Nat.lt_of_succ_lt_succ hm)
        · intro m hm hmj
          cases m with
          | zero => exact hlt
          | succ m => exact hstrict m (Nat.lt_of_succ_lt_succ hm) (Nat.lt_of_succ_lt_succ hmj)
      · push_neg at hrest
        have hrec : pickLoop rest (i + 1) (some i) (deviceScore d) = (some i, deviceScore d) :=
          pickLoop_no_improvement rest (i + 1) (some i) (deviceScore d) hrest
        refine ⟨0, Nat.succ_pos _, ?_, ?_, ?_, ?_⟩
        · simp only [pickLoop, if_pos hd]
          rw [hrec]
          rfl
        · exact hd
        · intro m hm
          cases m with
          | zero => exact le_refl _
          | succ m =>
            exact hrest (rest.get ⟨m, Nat.lt_of_succ_lt_succ hm⟩)
              (rest.get_mem m (Nat.lt_of_succ_lt_succ hm))
        · intro m hm hmj
          exact absurd hmj (Nat.not_lt_zero m)
    · have hd' : deviceScore d ≤ s := not_lt.mp hd
      obtain ⟨x, hx, hsx⟩ := hex
      have hxr : x ∈ rest := by
        rcases List.mem_cons.mp hx with h1 | h1
        · exact absurd hsx (by rw [h1]; exact not_lt.mpr hd')
        · exact h1
      obtain ⟨j, hj, heq, hlt, hmax, hstrict⟩ := ih (i + 1) b s ⟨x, hxr, hsx⟩
      refine ⟨j + 1, Nat.succ_lt_succ hj, ?_, ?_, ?_, ?_⟩
      · simp only [pickLoop, if_neg hd]
        rw [heq, show i + 1 + j = i + (j + 1) from by omega]
        rfl
      · exact hlt
      · intro m hm
        cases m with
        | zero => exact le_of_lt (lt_of_le_of_lt hd' hlt)
        | succ m => exact hmax m (Nat.lt_of_succ_lt_succ hm)
      · intro m hm hmj
        cases m with
        | zero => exact lt_of_le_of_lt hd' hlt
        | succ m => exact hstrict m (Nat.lt_of_succ_lt_succ hm) (Nat.lt_of_succ_lt_succ hmj)

lemma pickPhysicalDevice_ok_spec (devs : List PhysicalDevice) (k : Nat)
    (h : pickPhysicalDevice devs = .ok k) :
    ∃ hk : k < devs.length,
      0 < deviceScore (devs.get ⟨k, hk⟩) ∧
      (∀ m (hm : m < devs.length),
        deviceScore (devs.get ⟨m, hm⟩) ≤ deviceScore (devs.get ⟨k, hk⟩)) ∧
      (∀ m (hm : m < devs.length), m < k →
        deviceScore (devs.get ⟨m, hm⟩) < deviceScore (devs.get ⟨k, hk⟩)) := by
  by_cases hex : ∃ d ∈ devs, (0 : Int) < deviceScore d
  · obtain ⟨j, hj, heq, hlt, hmax, hstrict⟩ := pickLoop_improvement devs 0 none 0 hex
    have hne : devs.isEmpty = false := by
      cases devs with
      | nil => simp at hj
      | cons a l => rfl
    simp only [pickPhysicalDevice, hne, Bool.false_eq_true, if_false, heq] at h
    simp only [Nat.zero_add] at h
    have hkj : j = k := by
      cases h
      rfl
    subst hkj
    exact ⟨hj, hlt, hmax, hstrict⟩
  · push_neg at hex
    have : pickLoop devs 0 none 0 = (none, 0) :=
      pickLoop_no_improvement devs 0 none 0 hex
    by_cases hne : devs.isEmpty
    · simp only [pickPhysicalDevice, hne, if_true] at h
      cases h
    · simp only [pickPhysicalDevice, Bool.not_eq_true] at h
      rw [Bool.not_eq_true] at hne
      simp only [hne, Bool.false_eq_true, if_false, this] at h
      cases h

lemma indexFound_of_deviceScore_pos (d : PhysicalDevice) (h : 0 < deviceScore d) :
    (findQueueFamilies d).indexFound = true := by
  simp only [deviceScore] at h
  cases hfq : (findQueueFamilies d).indexFound with
  | true => rfl
  | false =>
    rw [hfq] at h
    norm_num at h

lemma deviceScore_nonpos (d : PhysicalDevice)
    (h : (findQueueFamilies d).indexFound = true →
      d.limits.maxImageDimension2D = 0 ∧ d.limits.maxImageDimension3D = 0) :
    deviceScore d ≤ 0 := by
  simp only [deviceScore]
  cases hfq : (findQueueFamilies d).indexFound with
  | false => norm_num
  | true =>
    obtain ⟨h2, h3⟩ := h hfq
    simp [h2, h3]

/-! ### Lemmas about the queue-family scan -/

lemma findQueueFamiliesLoop_none (l : List QueueFamilyProperties) :
    ∀ i : Nat, (∀ qf ∈ l, qualifiesGraphics qf = false) →
      findQueueFamiliesLoop l i ⟨false, 0⟩ = ⟨false, 0⟩ := by
  induction l with
  | nil => intro i _; rfl
  | cons qf rest ih =>
    intro i h
    have hqf : qualifiesGraphics qf = false := h qf (List.mem_cons_self qf rest)
    simp only [findQueueFamiliesLoop, hqf, Bool.false_eq_true, if_false]
    exact ih (i + 1) fun x hx => h x (List.mem_cons_of_mem qf hx)

lemma findQueueFamiliesLoop_first (l : List QueueFamilyProperties) :
    ∀ (i k : Nat) (hk : k < l.length), qualifiesGraphics (l.get ⟨k, hk⟩) = true →
      (∀ j (hj : j < l.length), j < k → qualifiesGraphics (l.get ⟨j, hj⟩) = false) →
      findQueueFamiliesLoop l i ⟨false, 0⟩ = ⟨true, i + k⟩ := by
  induction l with
  | nil => intro i k hk; simp at hk
  | cons qf rest ih =>
    intro i k hk hq hfirst
    cases k with
    | zero =>
      simp only [findQueueFamiliesLoop]
      rw [show qualifiesGraphics ((qf :: rest).get ⟨0, hk⟩) = qualifiesGraphics qf from rfl] at hq
      simp [hq]
    | succ k =>
      have hqf : qualifiesGraphics qf = false := hfirst 0 (Nat.succ_pos _) (Nat.succ_pos _)
      simp only [findQueueFamiliesLoop, hqf, Bool.false_eq_true, if_false]
      rw [show i + (k + 1) = (i + 1) + k from by omega]
      exact ih (i + 1) k (Nat.lt_of_succ_lt_succ hk) hq
        fun j hj hjk => hfirst (j + 1) (Nat.succ_lt_succ hj) (Nat.succ_lt_succ hjk)

/-! ### Claim theorems -/

/-- Claim C1, counterexample: a single candidate with a graphics-capable queue
family but both image-dimension limits zero. The claim says the selector picks
the maximal-scoring valid candidate (here the only one); the code instead
throws `failed to find a suitable GPU!`, because adoption requires a score
strictly greater than the initial best score `0`. -/
theorem C1_counterexample :
    (findQueueFamilies ⟨⟨0, 0⟩, [⟨1, 1⟩]⟩).indexFound = true ∧
    pickPhysicalDevice [⟨⟨0, 0⟩, [⟨1, 1⟩]⟩] = .error "failed to find a suitable GPU!" :=
  ⟨rfl, rfl⟩

/-- Claim C1 (amended): for every candidate list containing a device of
strictly positive score, `pickPhysicalDevice` selects a device with a
graphics-capable queue family whose score (`maxImageDimension2D +
maxImageDimension3D`) is maximal among all candidates — in particular it never
selects a device lacking a graphics-capable family, whose sentinel score `-1`
is never maximal here. -/
theorem C1_selection_maximal (devs : List PhysicalDevice)
    (h : ∃ d ∈ devs, (0 : Int) < deviceScore d) :
    ∃ k, ∃ hk : k < devs.length,
      pickPhysicalDevice devs = .ok k ∧
      (findQueueFamilies (devs.get ⟨k, hk⟩)).indexFound = true ∧
      ∀ m (hm : m < devs.length),
        deviceScore (devs.get ⟨m, hm⟩) ≤ deviceScore (devs.get ⟨k, hk⟩) := by
  obtain ⟨j, hj, heq, hlt, hmax, _⟩ := pickLoop_improvement devs 0 none 0 h
  have hne : devs.isEmpty = false := by
    cases devs with
    | nil => simp at hj
    | cons a l => rfl
  refine ⟨j, hj, ?_, indexFound_of_deviceScore_pos _ hlt, hmax⟩
  simp only [pickPhysicalDevice, hne, Bool.false_eq_true, if_false, heq, Nat.zero_add]

/-- Witness for C1: on a two-candidate list (one graphics-less device, one
graphics-capable device with limits 4096 and 2048) the selector picks index 1,
whose family scan succeeded. -/
theorem C1_selection_maximal_witness :
    pickPhysicalDevice [⟨⟨9999, 9999⟩, [⟨1, 2⟩]⟩, ⟨⟨4096, 2048⟩, [⟨1, 1⟩]⟩] = .ok 1 ∧
    (findQueueFamilies
      (([⟨⟨9999, 9999⟩, [⟨1, 2⟩]⟩, ⟨⟨4096, 2048⟩, [⟨1, 1⟩]⟩] : List PhysicalDevice).get
        ⟨1, by decide⟩)).indexFound = true := by
  obtain ⟨k, hk, hpick, hfound, hmax⟩ :=
    C1_selection_maximal [⟨⟨9999, 9999⟩, [⟨1, 2⟩]⟩, ⟨⟨4096, 2048⟩, [⟨1, 1⟩]⟩]
      ⟨⟨⟨4096, 2048⟩, [⟨1, 1⟩]⟩, by decide, by decide⟩
  have h2 : pickPhysicalDevice [⟨⟨9999, 9999⟩, [⟨1, 2⟩]⟩, ⟨⟨4096, 2048⟩, [⟨1, 1⟩]⟩] =
      Except.ok 1 := rfl
  rw [hpick] at h2
  injection h2 with h3
  subst h3
  exact ⟨hpick, hfound⟩

/-- Claim C2: the validation-layer availability check compares names with
`std::strcmp` used as a truth value, which is nonzero exactly when the names
differ. So a requested layer is marked "present" iff some available layer name
differs from it: with exactly the requested layer available the check returns
`false` and `createInstance` throws, and with only an unrelated layer
available the check returns `true` and creation proceeds — both opposite to
the claimed behaviour. -/
theorem C2_strcmp_inverted :
    checkValidationLayerSupport validationLayers ["VK_LAYER_KHRONOS_validation"] = false ∧
    createInstance true ["VK_LAYER_KHRONOS_validation"] true =
      .error "Validation layers requested, but not available!" ∧
    checkValidationLayerSupport validationLayers ["VK_LAYER_NOT_KHRONOS"] = true ∧
    createInstance true ["VK_LAYER_NOT_KHRONOS"] true = .ok () :=
  ⟨rfl, rfl, rfl, rfl⟩

/-- Claim C4: `findQueueFamilies` returns `indexFound = false` on an empty
family list and on a list with no qualifying family, and otherwise returns
`indexFound = true` with the index of the first family (in scan order) having
at least one queue and the graphics bit set. -/
theorem C4_first_graphics_family (d : PhysicalDevice) :
    (d.queueFamilies = [] → findQueueFamilies d = ⟨false, 0⟩) ∧
    ((∀ qf ∈ d.queueFamilies, qualifiesGraphics qf = false) →
      findQueueFamilies d = ⟨false, 0⟩) ∧
    (∀ k (hk : k < d.queueFamilies.length),
      qualifiesGraphics (d.queueFamilies.get ⟨k, hk⟩) = true →
      (∀ j (hj : j < d.queueFamilies.length), j < k →
        qualifiesGraphics (d.queueFamilies.get ⟨j, hj⟩) = false) →
      findQueueFamilies d = ⟨true, k⟩) := by
  refine ⟨?_, ?_, ?_⟩
  · intro h
    unfold findQueueFamilies
    rw [h]
    rfl
  · intro h
    exact findQueueFamiliesLoop_none d.queueFamilies 0 h
  · intro k hk hq hfirst
    have h := findQueueFamiliesLoop_first d.queueFamilies 0 k hk hq hfirst
    simpa [findQueueFamilies] using h

/-- Witness for C4: the example from the claim — families
`[compute-only, graphics+compute, graphics-only]` (compute bit `0x2`, graphics
bit `0x1`, one queue each) yield index 1, not 2. -/
theorem C4_first_graphics_family_witness :
    findQueueFamilies ⟨⟨0, 0⟩, [⟨1, 2⟩, ⟨1, 3⟩, ⟨1, 1⟩]⟩ = ⟨true, 1⟩ :=
  (C4_first_graphics_family ⟨⟨0, 0⟩, [⟨1, 2⟩, ⟨1, 3⟩, ⟨1, 1⟩]⟩).2.2 1 (by decide)
    (by decide) (by decide)

/-- Claim C5: whenever `pickPhysicalDevice` selects a candidate, that candidate
has the highest score and every earlier candidate scores strictly lower — so
among candidates tied at the highest score the first-seen one is kept, a later
equal score never replacing it (the comparison is a strict `>`). -/
theorem C5_tie_keeps_first (devs : List PhysicalDevice) (k : Nat)
    (h : pickPhysicalDevice devs = .ok k) :
    ∃ hk : k < devs.length,
      (∀ m (hm : m < devs.length),
        deviceScore (devs.get ⟨m, hm⟩) ≤ deviceScore (devs.get ⟨k, hk⟩)) ∧
      ∀ m (hm : m < devs.length), m < k →
        deviceScore (devs.get ⟨m, hm⟩) < deviceScore (devs.get ⟨k, hk⟩) := by
  obtain ⟨hk, _, hmax, hstrict⟩ := pickPhysicalDevice_ok_spec devs k h
  exact ⟨hk, hmax, hstrict⟩

/-- Witness for C5: two candidates with equal score 10; the selector returns
index 0, and the later tied candidate's score does not exceed the kept one. -/
theorem C5_tie_keeps_first_witness :
    pickPhysicalDevice [⟨⟨5, 5⟩, [⟨1, 1⟩]⟩, ⟨⟨5, 5⟩, [⟨1, 1⟩]⟩] = .ok 0 ∧
    deviceScore (([⟨⟨5, 5⟩, [⟨1, 1⟩]⟩, ⟨⟨5, 5⟩, [⟨1, 1⟩]⟩] : List PhysicalDevice).get
        ⟨1, by decide⟩) ≤
      deviceScore (([⟨⟨5, 5⟩, [⟨1, 1⟩]⟩, ⟨⟨5, 5⟩, [⟨1, 1⟩]⟩] : List PhysicalDevice).get
        ⟨0, by decide⟩) := by
  obtain ⟨hk, hmax, _⟩ :=
    C5_tie_keeps_first [⟨⟨5, 5⟩, [⟨1, 1⟩]⟩, ⟨⟨5, 5⟩, [⟨1, 1⟩]⟩] 0 rfl
  exact ⟨rfl, hmax 1 (by decide)⟩

/-- Claim C8: when the candidate list is non-empty, some candidate has a
graphics-capable queue family, but every such candidate has both
image-dimension limits equal to 0 (score 0), `pickPhysicalDevice` throws
`failed to find a suitable GPU!` instead of selecting any device, since
adoption requires a score strictly above the initial best score 0. -/
theorem C8_all_zero_scores_throw (devs : List PhysicalDevice) (hne : devs ≠ [])
    (hex : ∃ d ∈ devs, (findQueueFamilies d).indexFound = true)
    (hzero : ∀ d ∈ devs, (findQueueFamilies d).indexFound = true →
      d.limits.maxImageDimension2D = 0 ∧ d.limits.maxImageDimension3D = 0) :
    pickPhysicalDevice devs = .error "failed to find a suitable GPU!" := by
  have hnp : ∀ d ∈ devs, deviceScore d ≤ 0 := fun d hd => deviceScore_nonpos d (hzero d hd)
  have hloop := pickLoop_no_improvement devs 0 none 0 hnp
  have hie : devs.isEmpty = false := by
    cases devs with
    | nil => exact absurd rfl hne
    | cons a l => rfl
  simp only [pickPhysicalDevice, hie, Bool.false_eq_true, if_false, hloop]

/-- Witness for C8: two candidates, one graphics-capable with zero limits and
one compute-only; selection throws. -/
theorem C8_all_zero_scores_throw_witness :
    pickPhysicalDevice [⟨⟨0, 0⟩, [⟨1, 1⟩]⟩, ⟨⟨7, 7⟩, [⟨1, 2⟩]⟩] =
      .error "failed to find a suitable GPU!" :=
  C8_all_zero_scores_throw [⟨⟨0, 0⟩, [⟨1, 1⟩]⟩, ⟨⟨7, 7⟩, [⟨1, 2⟩]⟩] (by decide)
    ⟨⟨⟨0, 0⟩, [⟨1, 1⟩]⟩, by decide, by decide⟩ (by decide)

/-- Claim C9: whenever `pickPhysicalDevice` completes without throwing, the
selected device's queue-family scan succeeded (`indexFound = true`), so
`createLogicalDevice` reading `graphicsFamily` without checking the flag never
uses a not-found result: the selected score is strictly positive, hence not
the `-1` no-graphics-family sentinel. -/
theorem C9_selected_has_graphics_family (devs : List PhysicalDevice) (k : Nat)
    (h : pickPhysicalDevice devs = .ok k) :
    ∃ hk : k < devs.length,
      0 < deviceScore (devs.get ⟨k, hk⟩) ∧
      (findQueueFamilies (devs.get ⟨k, hk⟩)).indexFound = true := by
  obtain ⟨hk, hpos, _, _⟩ := pickPhysicalDevice_ok_spec devs k h
  exact ⟨hk, hpos, indexFound_of_deviceScore_pos _ hpos⟩

/-- Witness for C9: a concrete selection whose result device has a found
graphics family. -/
theorem C9_selected_has_graphics_family_witness :
    (findQueueFamilies (([⟨⟨3, 4⟩, [⟨1, 1⟩]⟩] : List PhysicalDevice).get
      ⟨0, by decide⟩)).indexFound = true := by
  obtain ⟨hk, _, hfound⟩ :=
    C9_selected_has_graphics_family [⟨⟨3, 4⟩, [⟨1, 1⟩]⟩] 0 rfl
  exact hfound

/-- Claim C10: for every non-empty requested-layer list,
`checkValidationLayerSupport` returns `false` when the enumerated
available-layer list is empty: no layer can be marked present, so the
conjunction over requested layers is false. -/
theorem C10_empty_available_layers (requested : List String) (h : requested ≠ []) :
    checkValidationLayerSupport requested [] = false := by
  cases requested with
  | nil => exact absurd rfl h
  | cons r rest => simp [checkValidationLayerSupport, layerIsPresent]

/-- Witness for C10: the program's own requested-layer list against an empty
available-layer list. -/
theorem C10_empty_available_layers_witness :
    checkValidationLayerSupport validationLayers [] = false :=
  C10_empty_available_layers validationLayers (by decide)

/-- Claim C3, counterexample: when the messenger-destroy extension function
does not resolve, `cleanup` is not a silent no-op — `callVKfx` throws
`VK_ERROR_EXTENSION_NOT_PRESENT` — and the remaining teardown steps (instance,
window, platform shutdown) do not execute. -/
theorem C3_counterexample :
    (cleanup false).2 = some "VK_ERROR_EXTENSION_NOT_PRESENT" ∧
    Event.destroyInstance ∉ (cleanup false).1 ∧
    Event.destroyWindow ∉ (cleanup false).1 ∧
    Event.glfwTerminate ∉ (cleanup false).1 := by
  refine ⟨rfl, ?_, ?_, ?_⟩ <;> decide

/-- Claim C3 (amended): when the messenger-destroy extension function cannot be
resolved at runtime, the messenger-destroy step of `cleanup` throws a runtime
error `VK_ERROR_EXTENSION_NOT_PRESENT` after the logical device has been
destroyed, and the remaining teardown steps are abandoned rather than
executed. -/
theorem C3_unresolvable_destroy_throws :
    cleanup false = ([Event.destroyDevice], some "VK_ERROR_EXTENSION_NOT_PRESENT") ∧
    callVKfxResolves false = .error "VK_ERROR_EXTENSION_NOT_PRESENT" :=
  ⟨rfl, rfl⟩

/-- Claim C6: when device enumeration reports zero devices (and the earlier
bootstrap steps do not fail for their own reasons), the run throws
`Failed to find GPUs with Vulkan support! …` before the event loop is ever
entered, `main` catches it once, reports the message on standard error and
exits with `EXIT_FAILURE`; a run that completes normally exits with code 0. -/
theorem C6_zero_devices_fatal :
    (∀ env : Env, env.devices = [] →
      env.createInstanceOk = true →
      (env.enableValidationLayers = true →
        checkValidationLayerSupport validationLayers env.availableLayers = true ∧
        env.createMessengerResolvable = true ∧ env.createMessengerOk = true) →
      (runApp env).2 =
        some "Failed to find GPUs with Vulkan support! Get a better computer LOSER!!!" ∧
      Event.mainLoop ∉ (runApp env).1 ∧
      mainResult env = (EXIT_FAILURE,
        some "Failed to find GPUs with Vulkan support! Get a better computer LOSER!!!")) ∧
    ∀ env : Env, (runApp env).2 = none → mainResult env = (EXIT_SUCCESS, none) := by
  constructor
  · intro env hdev hio hval
    cases henv : env.enableValidationLayers with
    | false =>
      have h1 : runApp env = ([Event.glfwInit, Event.createWindow, Event.createInstance],
          some "Failed to find GPUs with Vulkan support! Get a better computer LOSER!!!") := by
        simp [runApp, createInstance, setupDebugMessenger, henv, hio, hdev, pickPhysicalDevice]
      refine ⟨by rw [h1], by rw [h1]; decide, by simp [mainResult, h1, EXIT_FAILURE]⟩
    | true =>
      obtain ⟨hchk, hres, hok⟩ := hval henv
      have h1 : runApp env = ([Event.glfwInit, Event.createWindow, Event.createInstance,
          Event.createMessenger],
          some "Failed to find GPUs with Vulkan support! Get a better computer LOSER!!!") := by
        simp [runApp, createInstance, setupDebugMessenger, callVKfxResolves, henv, hio, hdev,
          hchk, hres, hok, pickPhysicalDevice]
      refine ⟨by rw [h1], by rw [h1]; decide, by simp [mainResult, h1, EXIT_FAILURE]⟩
  · intro env h
    simp [mainResult, h, EXIT_SUCCESS]

/-- Witness for C6: a debug-disabled environment with an empty device list
exits with code 1 and the enumeration failure message on standard error, and
the same environment with one usable device exits with code 0. -/
theorem C6_zero_devices_fatal_witness :
    mainResult ⟨false, [], true, true, true, [], true, true⟩ =
      (EXIT_FAILURE,
        some "Failed to find GPUs with Vulkan support! Get a better computer LOSER!!!") ∧
    mainResult ⟨false, [], true, true, true, [⟨⟨1, 0⟩, [⟨1, 1⟩]⟩], true, true⟩ =
      (EXIT_SUCCESS, none) := by
  constructor
  · exact (C6_zero_devices_fatal.1 ⟨false, [], true, true, true, [], true, true⟩ rfl rfl
      (fun h => nomatch h)).2.2
  · exact C6_zero_devices_fatal.2 ⟨false, [], true, true, true, [⟨⟨1, 0⟩, [⟨1, 1⟩]⟩], true, true⟩
      rfl

/-- Claim C7: `cleanup` releases in the exact reverse of the acquisition order
— logical device, messenger, instance, window, platform windowing shutdown —
and every run that completes without throwing ends with exactly this release
sequence, none of its steps reordered or omitted. -/
theorem C7_teardown_reverse_order :
    (cleanup true).1 = acquisitionOrder.reverse.map releaseOf ∧
    (cleanup true).2 = none ∧
    ∀ env : Env, (runApp env).2 = none →
      ∃ pre, (runApp env).1 = pre ++ acquisitionOrder.reverse.map releaseOf := by
  refine ⟨rfl, rfl, ?_⟩
  intro env h
  simp only [runApp] at h ⊢
  cases hci : createInstance env.enableValidationLayers env.availableLayers
      env.createInstanceOk with
  | error e => simp [hci] at h
  | ok u =>
    simp only [hci] at h ⊢
    cases hdm : setupDebugMessenger env with
    | error e => simp [hdm] at h
    | ok v =>
      simp only [hdm] at h ⊢
      cases hpk : pickPhysicalDevice env.devices with
      | error e => simp [hpk] at h
      | ok i =>
        simp only [hpk] at h ⊢
        cases hcd : env.createDeviceOk with
        | false => simp [hcd] at h
        | true =>
          simp only [hcd] at h ⊢
          cases hdr : env.destroyMessengerResolvable with
          | false => simp [hdr, cleanup, callVKfxResolves] at h
          | true => exact ⟨_, rfl⟩

/-- Witness for C7: a successful run's trace is the three-step acquisition
(window system, window, instance; diagnostics off), the device creation, the
event loop, then the five release steps in exact reverse-acquisition order. -/
theorem C7_teardown_reverse_order_witness :
    (runApp ⟨false, [], true, true, true, [⟨⟨2, 3⟩, [⟨1, 1⟩]⟩], true, true⟩).2 = none ∧
    (runApp ⟨false, [], true, true, true, [⟨⟨2, 3⟩, [⟨1, 1⟩]⟩], true, true⟩).1 =
      [Event.glfwInit, Event.createWindow, Event.createInstance, Event.createDevice,
        Event.mainLoop, Event.destroyDevice, Event.destroyMessenger, Event.destroyInstance,
        Event.destroyWindow, Event.glfwTerminate] := by
  obtain ⟨pre, hpre⟩ := C7_teardown_reverse_order.2.2
    ⟨false, [], true, true, true, [⟨⟨2, 3⟩, [⟨1, 1⟩]⟩], true, true⟩ rfl
  exact ⟨rfl, rfl⟩

end VK
